import Mathlib

/-!
Verification development for the multi-agent orchestration core of the
Multimodal Vision Agentic System repository.

The Python sources are shallowly embedded as executable Lean definitions:
Python strings as Lean strings with structural helper operations, the
TypedDict AgentState as a structure, the LangGraph add_messages reducer as
an explicit list merge, module imports as name resolution over the list of
symbols a module defines, and the tool-calling supervisor loop as a fold
over the sequence of decisions emitted by the routing model.
-/

namespace MVAS

/-! Python string operations, written structurally so they reduce in the kernel. -/

def pyLower (s : String) : String := (s.toList.map Char.toLower).asString

def isPrefixB : List Char → List Char → Bool
  | [], _ => true
  | _ :: _, [] => false
  | a :: as, b :: bs => a == b && isPrefixB as bs

/-- Boolean substring test on char lists, modelling the Python `in` operator on strings. -/
def isInfixB (needle : List Char) : List Char → Bool
  | [] => needle.isEmpty
  | c :: rest => isPrefixB needle (c :: rest) || isInfixB needle rest

def splitLinesAux : List Char → List Char → List String
  | [], acc => [acc.reverse.asString]
  | c :: rest, acc =>
      if c == '\n' then acc.reverse.asString :: splitLinesAux rest []
      else splitLinesAux rest (c :: acc)

/-- Python str.split applied with separator newline: keeps empty segments. -/
def pySplitLines (s : String) : List String := splitLinesAux s.toList []

/-- Python "\n".join. -/
def joinLines : List String → String
  | [] => ""
  | [l] => l
  | l :: rest => l ++ "\n" ++ joinLines rest

/-- Python slice s[:n] (by code points). -/
def pyTake (n : Nat) (s : String) : String := (s.toList.take n).asString

def pyLen (s : String) : Nat := s.toList.length

/-- The apostrophe character, kept out of string literals. -/
def apos : String := (Char.ofNat 39).toString

/-- Python exception flow: a computation either raises or returns a value. -/
inductive PyExcept (α : Type) where
  | raised (msg : String)
  | ok (val : α)
deriving DecidableEq

/-! The shared conversation state (src/src/agents/base.py, AgentState TypedDict). -/

structure Msg where
  id : Nat
  role : String
  content : String
deriving DecidableEq

structure AgentState where
  messages : List Msg
  next_agent : String
  current_agent : String
  task_type : String
  context : List (String × String)
deriving DecidableEq

/-- One step of the LangGraph add_messages reducer: a returned message whose
id matches an existing one replaces it in place, otherwise it is appended. -/
def addOne (acc : List Msg) (m : Msg) : List Msg :=
  if acc.any (fun o => o.id == m.id)
  then acc.map (fun o => if o.id == m.id then m else o)
  else acc ++ [m]

/-- The LangGraph add_messages reducer on the messages channel
(base.py annotates messages with add_messages). -/
def addMessages : List Msg → List Msg → List Msg
  | old, [] => old
  | old, m :: rest => addMessages (addOne old m) rest

/-- Applying a node return value to the current state: the messages channel
is merged with add_messages, every other channel takes the returned value. -/
def applyNode (s u : AgentState) : AgentState :=
  { u with messages := addMessages s.messages u.messages }

/-- Lookup in a Python dict modelled as an association list with unique keys. -/
def ctxLookup : List (String × String) → String → Option String
  | [], _ => none
  | p :: rest, k => if p.1 == k then some p.2 else ctxLookup rest k

/-- Python dict update, as in the merge pattern of the agent nodes:
replace the value of an existing key in place, else append the pair. -/
def dictInsert : List (String × String) → String → String → List (String × String)
  | [], k, v => [(k, v)]
  | p :: rest, k, v => if p.1 == k then (k, v) :: rest else p :: dictInsert rest k v

/-- Freshness of one message id relative to a transcript. -/
def FreshId (msgs : List Msg) (i : Nat) : Prop := ∀ m ∈ msgs, m.id ≠ i

instance (msgs : List Msg) (i : Nat) : Decidable (FreshId msgs i) := by
  unfold FreshId; infer_instance

/-! Claim C1 material: the import structure of the agents package.
src/src/agents/supervisor.py defines exactly these module-level names. -/

def supervisor_module_defs : List String :=
  ["create_agent", "tool", "settings",
   "create_vision_agent", "create_ocr_agent", "create_qa_agent",
   "_vision_agent", "_ocr_agent", "_qa_agent",
   "get_vision_agent", "get_ocr_agent", "get_qa_agent",
   "use_vision_specialist", "use_ocr_specialist", "use_qa_specialist",
   "create_supervisor"]

/-- Python from-import: resolving each requested name against the names the
module defines; the first missing name raises ImportError. -/
def from_import (defs : List String) (names : List String) : PyExcept Unit :=
  match names.find? (fun n => !(defs.contains n)) with
  | some n => .raised ("ImportError: cannot import name " ++ n)
  | none => .ok ()

/-- orchestrator.py line 56: from .supervisor import build_supervisor_graph. -/
def import_orchestrator_module : PyExcept Unit :=
  from_import supervisor_module_defs ["build_supervisor_graph"]

/-- agents/__init__.py: first imports the orchestrator module (line 24),
then imports build_supervisor_graph and build_supervisor_with_package from
the supervisor module (lines 41-44). -/
def import_agents_package : PyExcept Unit :=
  match import_orchestrator_module with
  | .raised e => .raised e
  | .ok _ =>
      from_import supervisor_module_defs
        ["build_supervisor_graph", "build_supervisor_with_package"]

/-- Calling any function of the agents package (get_multi_agent_system,
invoke_agent, ...) first requires the package import to succeed. -/
def call_in_agents_package (body : Unit → PyExcept Unit) : PyExcept Unit :=
  match import_agents_package with
  | .raised e => .raised e
  | .ok _ => body ()

/-- Claim C1: importing the agents package, and hence every call to
get_multi_agent_system or invoke_agent, raises an ImportError because the
supervisor module defines neither build_supervisor_graph nor
build_supervisor_with_package. -/
theorem C1_agents_package_import_error :
    import_orchestrator_module = .raised "ImportError: cannot import name build_supervisor_graph"
    ∧ import_agents_package = .raised "ImportError: cannot import name build_supervisor_graph"
    ∧ ∀ body, call_in_agents_package body
        = .raised "ImportError: cannot import name build_supervisor_graph" :=
  ⟨rfl, rfl, fun _ => rfl⟩

/-! Claim C3 material: the registry getters of supervisor.py lines 33-54.
Each getter is the unsynchronized pattern
  if _agent is None: _agent = create_agent()
  return _agent
Two concurrent callers are modelled as interleaved threads over a shared
slot, at the granularity at which the interpreter may switch threads:
the None check, the construct-and-assign, and the final read for return.
Constructed instances are identified by the value of the construction
counter at creation time, so distinct constructions are distinct instances. -/

inductive ThreadPhase where
  | ready
  | construct
  | retStep
  | done (inst : Nat)
deriving DecidableEq

structure RegistryState where
  slot : Option Nat
  ctor_runs : Nat
  threadA : ThreadPhase
  threadB : ThreadPhase
deriving DecidableEq

def stepPhase (slot : Option Nat) (ctor_runs : Nat) :
    ThreadPhase → Option Nat × Nat × ThreadPhase
  | .ready =>
      match slot with
      | none => (none, ctor_runs, .construct)
      | some v => (some v, ctor_runs, .retStep)
  | .construct => (some ctor_runs, ctor_runs + 1, .retStep)
  | .retStep => (slot, ctor_runs, .done (slot.getD 0))
  | .done v => (slot, ctor_runs, .done v)

def stepReg (s : RegistryState) (schedA : Bool) : RegistryState :=
  if schedA then
    match stepPhase s.slot s.ctor_runs s.threadA with
    | (slot, c, ph) => { s with slot := slot, ctor_runs := c, threadA := ph }
  else
    match stepPhase s.slot s.ctor_runs s.threadB with
    | (slot, c, ph) => { s with slot := slot, ctor_runs := c, threadB := ph }

def runSchedule (sched : List Bool) (s : RegistryState) : RegistryState :=
  sched.foldl stepReg s

def initRegistry : RegistryState :=
  { slot := none, ctor_runs := 0, threadA := .ready, threadB := .ready }

/-! Claim C2 material: the tool-calling supervisor built by
create_supervisor (supervisor.py lines 165-250). The compiled agent is a
loop: the routing model emits either a batch of tool calls, each of which
runs one wrapped specialist (use_vision_specialist, use_ocr_specialist,
use_qa_specialist), or a final assistant response that ends the run. The
sequence of model decisions is the oracle parameter. -/

inductive SupDecision where
  | callTools (tools : List String)
  | respond (text : String)
deriving DecidableEq

def toolMessages (tools : List String) : List Msg :=
  tools.map (fun t => Msg.mk 0 "tool" ("result of " ++ t))

/-- The create_agent execution loop: tool-call decisions run the named
specialists and append their tool messages, a respond decision appends the
final assistant message and stops. The second component counts how many
specialist executions have happened. -/
def agentLoop : List SupDecision → List Msg → Nat → List Msg × Nat
  | [], msgs, runs => (msgs, runs)
  | .respond text :: _, msgs, runs => (msgs ++ [Msg.mk 0 "assistant" text], runs)
  | .callTools ts :: rest, msgs, runs =>
      agentLoop rest (msgs ++ toolMessages ts) (runs + ts.length)

/-- Number of specialist tool calls the decision sequence issues before the
first final response. -/
def decided_tool_calls : List SupDecision → Nat
  | [] => 0
  | .respond _ :: _ => 0
  | .callTools ts :: rest => ts.length + decided_tool_calls rest

theorem agentLoop_runs (ds : List SupDecision) :
    ∀ msgs r, (agentLoop ds msgs r).2 = r + decided_tool_calls ds := by
  induction ds with
  | nil => intro msgs r; simp [agentLoop, decided_tool_calls]
  | cons d rest ih =>
    intro msgs r
    cases d with
    | respond t => simp [agentLoop, decided_tool_calls]
    | callTools ts =>
      simp only [agentLoop, decided_tool_calls, ih]
      omega

/-! Claim C8 material: cross-call persistence. create_supervisor compiles
the agent with checkpointer=None (supervisor.py line 247), so there is no
thread store; an invoke with a thread_id in its config starts from the new
user message alone and persists nothing. -/

def supervisor_checkpointer : Option (List (String × List Msg)) := none

def loadThread (cp : Option (List (String × List Msg))) (tid : String) : List Msg :=
  match cp with
  | none => []
  | some store => ((store.find? (fun p => p.1 == tid)).map (fun p => p.2)).getD []

def storeThread (cp : Option (List (String × List Msg))) (tid : String)
    (msgs : List Msg) : Option (List (String × List Msg)) :=
  match cp with
  | none => none
  | some store =>
      some (if store.any (fun p => p.1 == tid)
            then store.map (fun p => if p.1 == tid then (tid, msgs) else p)
            else store ++ [(tid, msgs)])

/-- One invoke call on the compiled supervisor for a given thread: load the
prior transcript from the checkpointer, append the new user message, run the
agent loop, persist the final transcript back to the checkpointer. Returns
the final transcript of the call and the updated checkpointer. -/
def invokeSupervisor (cp : Option (List (String × List Msg))) (tid : String)
    (user_message : String) (ds : List SupDecision) :
    List Msg × Option (List (String × List Msg)) :=
  let prior := loadThread cp tid
  let start := prior ++ [Msg.mk 0 "user" user_message]
  let final := (agentLoop ds start 0).1
  (final, storeThread cp tid final)

/-! Claim C4 material: the reset path. The /reset endpoint
(api/routers/agent.py lines 269-287) calls reset_multi_agent_system
(orchestrator.py lines 119-123), which takes no conversation id and sets the
process-wide singleton to None; the next get_multi_agent_system builds a
fresh system whose memory holds no conversation. -/

structure MultiAgentSystem where
  memory : List (String × List Msg)
deriving DecidableEq

def reset_multi_agent_system_op (_sys : Option MultiAgentSystem) :
    Option MultiAgentSystem := none

/-- Loading the transcript of one conversation from the current singleton:
after a reset the singleton is None, so the rebuilt system knows no
conversation and every load yields the fresh empty state. -/
def load_conversation (sys : Option MultiAgentSystem) (thread_id : String) : List Msg :=
  match sys with
  | none => []
  | some s => ((s.memory.find? (fun p => p.1 == thread_id)).map (fun p => p.2)).getD []

/-- The /reset endpoint body: delegates to the singleton reset and reports success. -/
def reset_agent_memory (sys : Option MultiAgentSystem) :
    Bool × Option MultiAgentSystem :=
  (true, reset_multi_agent_system_op sys)

/-! Claim C5 material: the /chat request schema and handler
(api/routers/agent.py lines 42-143). The message field is a required str
with no minimum length, and the handler builds the initial state directly
from it with no emptiness check. -/

structure AgentChatRequest where
  message : String
  thread_id : Option String
deriving DecidableEq

/-- Pydantic validation of AgentChatRequest: message is required
(Field(...)) but of plain type str, so any string value is accepted. -/
def validate_chat_request (message : Option String) (thread_id : Option String) :
    PyExcept AgentChatRequest :=
  match message with
  | none => .raised "ValidationError: field required: message"
  | some m => .ok { message := m, thread_id := thread_id }

/-- The initial state chat_with_agent passes to the multi-agent system:
the request message becomes a HumanMessage in the transcript unconditionally. -/
def chat_initial_state (req : AgentChatRequest) : AgentState :=
  { messages := [Msg.mk 0 "user" req.message]
    next_agent := ""
    current_agent := ""
    task_type := "unknown"
    context := [] }

/-! Document agent node (src/src/agents/document_agent.py lines 118-181).
The internal agent invocation of the try block is passed as a PyExcept
oracle; the id the framework assigns to a message created by the node is
the freshId parameter. get_document_agent runs before the try block, so a
configuration failure there is modelled separately in document_agent_call. -/

def docEmptyContent : String :=
  "I" ++ apos ++ "m the Document Intelligence Agent. Please provide a document to process or ask about my capabilities."

def docErrorContent (e : String) : String :=
  "Document processing error: " ++ e ++ ". Please ensure the file path is correct and the file exists."

def document_agent_node (invokeResult : PyExcept (List Msg)) (freshId : Nat)
    (state : AgentState) : AgentState :=
  if state.messages.isEmpty then
    { state with
      messages := [Msg.mk freshId "assistant" docEmptyContent]
      current_agent := "document_agent" }
  else
    match invokeResult with
    | .ok response_messages =>
        let ai_messages := response_messages.filter (fun m => m.role == "assistant")
        let final_response :=
          ai_messages.getLast?.getD (Msg.mk freshId "assistant" "Document processing completed.")
        { state with
          messages := [final_response]
          current_agent := "document_agent"
          context := dictInsert state.context "document_result" final_response.content }
    | .raised e =>
        { state with
          messages := [Msg.mk freshId "assistant" (docErrorContent e)]
          current_agent := "document_agent" }

/-- The full node call: get_document_agent (outside the try block, so a
configuration error raised there propagates), then the guarded body. -/
def document_agent_call (config : PyExcept Unit) (invokeResult : PyExcept (List Msg))
    (freshId : Nat) (state : AgentState) : PyExcept AgentState :=
  match config with
  | .raised e => .raised e
  | .ok _ => .ok (document_agent_node invokeResult freshId state)

/-! Video agent node (src/src/agents/video_agent.py lines 140-198): the
placeholder specialist. Its response content is an f-string over the latest
message and the Groq availability probe. -/

def provider_status (groq_available : Bool) : String :=
  if groq_available then "Groq Llama 3.2 Vision (~50ms)" else "GPT-4o (fallback)"

def videoContent (user_request : String) (groq_available : Bool) : String :=
  "**Video/Robotics Vision Agent - Ready for Phase 2**\n\nI received your request about video analysis:\n> "
  ++ pyTake 200 user_request
  ++ (if pyLen user_request > 200 then "..." else "")
  ++ "\n\n**Vision Model Status:**\n- Provider: "
  ++ provider_status groq_available
  ++ "\n- Latency: "
  ++ (if groq_available then "~50ms (real-time capable)" else "~200ms")
  ++ "\n- Ready: "
  ++ (if groq_available then "Yes - Groq API configured" else "Partial - using OpenAI fallback")
  ++ "\n\n**Capabilities (Phase 2):**\n- Frame extraction from video files\n- Face detection using MediaPipe\n- Emotion analysis in real-time\n- Object detection and tracking\n- People counting\n- Real-time robotics vision\n\n**Current Status:** The low-latency vision infrastructure is configured. Full tool implementation coming in Phase 2.\n\n**Available Now:**\nFor document processing (OCR, tables, PDFs), please use the Document Intelligence Agent.\n"

def video_agent_node (groq_available : Bool) (freshId : Nat)
    (state : AgentState) : AgentState :=
  let messages := state.messages
  let user_request := ((messages.getLast?).map (fun m => m.content)).getD ""
  let response_message := Msg.mk freshId "assistant" (videoContent user_request groq_available)
  { state with
    messages := [response_message]
    current_agent := "video_agent"
    context := dictInsert state.context "video_result" "Phase 2 - Coming Soon" }

/-! Claim C10 material: the QA search tool
(src/src/agents/qa_agent.py lines 21-40). -/

/-- The condition of the list comprehension: query.lower() in line.lower(). -/
def lineMatchesCI (query line : String) : Bool :=
  isInfixB (pyLower query).toList (pyLower line).toList

def search_extracted_text (query context : String) : String :=
  let lines := pySplitLines context
  let relevant_lines := lines.filter (lineMatchesCI query)
  if relevant_lines.isEmpty then
    "No information found for " ++ apos ++ query ++ apos ++ " in the provided context."
  else
    joinLines relevant_lines

/-! Helper lemmas about the add_messages merge and the dict update. -/

theorem addMessages_fresh_cons (old : List Msg) (m : Msg) (rest : List Msg)
    (h : ∀ o ∈ old, o.id ≠ m.id) :
    addMessages old (m :: rest) = addMessages (old ++ [m]) rest := by
  have hany : old.any (fun o => o.id == m.id) = false := by
    rw [List.any_eq_false]
    intro o ho
    simpa using h o ho
  have hstep : addOne old m = old ++ [m] := by
    unfold addOne
    rw [hany]
    rfl
  show addMessages (addOne old m) rest = addMessages (old ++ [m]) rest
  rw [hstep]

theorem addMessages_single (old : List Msg) (m : Msg)
    (h : ∀ o ∈ old, o.id ≠ m.id) :
    addMessages old [m] = old ++ [m] := by
  rw [addMessages_fresh_cons old m [] h]
  rfl

theorem addMessages_append (old new : List Msg)
    (hnodup : new.Pairwise (fun a b => a.id ≠ b.id))
    (hfresh : ∀ n ∈ new, ∀ o ∈ old, o.id ≠ n.id) :
    addMessages old new = old ++ new := by
  induction new generalizing old with
  | nil => simp [addMessages]
  | cons m rest ih =>
    have h1 : ∀ o ∈ old, o.id ≠ m.id :=
      fun o ho => hfresh m (List.mem_cons_self m rest) o ho
    have h2 : rest.Pairwise (fun a b => a.id ≠ b.id) := (List.pairwise_cons.mp hnodup).2
    have h3 : ∀ n ∈ rest, ∀ o ∈ old ++ [m], o.id ≠ n.id := by
      intro n hn o ho
      rcases List.mem_append.mp ho with hh | hh
      · exact hfresh n (List.mem_cons_of_mem m hn) o hh
      · have hom : o = m := by simpa using hh
        subst hom
        exact (List.pairwise_cons.mp hnodup).1 n hn
    rw [addMessages_fresh_cons old m rest h1, ih (old ++ [m]) h2 h3]
    simp

theorem ctxLookup_dictInsert_self (ctx : List (String × String)) (k v : String) :
    ctxLookup (dictInsert ctx k v) k = some v := by
  induction ctx with
  | nil => simp [dictInsert, ctxLookup]
  | cons p rest ih =>
    by_cases h : p.1 = k
    · simp [dictInsert, ctxLookup, h]
    · have hb : (p.1 == k) = false := by simp [h]
      simp [dictInsert, ctxLookup, hb, ih]

theorem ctxLookup_dictInsert_other (ctx : List (String × String)) (k v k' : String)
    (h : k' ≠ k) :
    ctxLookup (dictInsert ctx k v) k' = ctxLookup ctx k' := by
  induction ctx with
  | nil =>
    have h1 : (k == k') = false := by simp [Ne.symm h]
    simp [dictInsert, ctxLookup, h1]
  | cons p rest ih =>
    by_cases hp : p.1 = k
    · have h1 : (k == k') = false := by simp [Ne.symm h]
      have h2 : (p.1 == k') = false := by simp [hp, Ne.symm h]
      simp [dictInsert, ctxLookup, hp, h1, h2]
    · by_cases hk : p.1 = k'
      · simp [dictInsert, ctxLookup, hp, hk, h]
      · simp [dictInsert, ctxLookup, hp, hk, ih]

/-- Pairwise-distinct fresh ids of a batch of returned messages relative to
the existing transcript. -/
def FreshBatch (old new : List Msg) : Prop :=
  new.Pairwise (fun a b => a.id ≠ b.id) ∧ ∀ n ∈ new, ∀ o ∈ old, o.id ≠ n.id

instance (old new : List Msg) : Decidable (FreshBatch old new) := by
  unfold FreshBatch; infer_instance

/-! Claim C2: single dispatch. -/

/-- Claim C2 counterexample: the supervisor is a tool-calling agent whose
system prompt explicitly allows calling multiple specialists in sequence;
a run in which the routing model first calls the OCR specialist and then
the QA specialist executes two Task Executor runs in one invoke call,
refuting the claim that exactly one run happens (never more than one). -/
theorem C2_counterexample :
    (agentLoop
        [SupDecision.callTools ["use_ocr_specialist"],
         SupDecision.callTools ["use_qa_specialist"],
         SupDecision.respond "the total is 50"]
        [Msg.mk 0 "user" "extract the text and tell me the total"] 0).2 = 2 := by
  decide

/-- Claim C2 (amended): the number of Task Executor runs in one invoke call
equals the number of tool-call decisions the supervisor model emits before
its final response; it is not bounded by one — every count, zero included,
is realized by some decision sequence. -/
theorem C2_dispatch_count :
    (∀ ds msgs, (agentLoop ds msgs 0).2 = decided_tool_calls ds)
    ∧ ∀ n, ∃ ds, (agentLoop ds [] 0).2 = n := by
  constructor
  · intro ds msgs
    simpa using agentLoop_runs ds msgs 0
  · intro n
    refine ⟨[SupDecision.callTools (List.replicate n "use_ocr_specialist"),
             SupDecision.respond "done"], ?_⟩
    rw [agentLoop_runs]
    simp [decided_tool_calls]

/-! Claim C3: registry construct-once. -/

def race_schedule : List Bool := [true, false, false, false, true, true]

def sequential_schedule : List Bool := [true, true, true, false, false, false]

/-- Claim C3 counterexample: the getters guard the cached slot with a naive
check-then-create and no lock, so in the interleaving where both threads
pass the None check before either assigns, the constructor runs twice and
the two threads return distinct instances. -/
theorem C3_counterexample :
    (runSchedule race_schedule initRegistry).ctor_runs = 2
    ∧ (runSchedule race_schedule initRegistry).threadA = ThreadPhase.done 1
    ∧ (runSchedule race_schedule initRegistry).threadB = ThreadPhase.done 0 := by
  decide

/-- Claim C3 (amended): the registry getters cache through an unsynchronized
check-then-create slot. When first-time calls do not interleave, the
constructor runs exactly once and both callers receive the same cached
instance; but there exists an interleaving of two concurrent first-time
calls in which the constructor runs twice and the callers end with distinct
instances. -/
theorem C3_registry_check_then_create :
    ((runSchedule sequential_schedule initRegistry).ctor_runs = 1
      ∧ (runSchedule sequential_schedule initRegistry).threadA = ThreadPhase.done 0
      ∧ (runSchedule sequential_schedule initRegistry).threadB = ThreadPhase.done 0)
    ∧ ∃ sched, (runSchedule sched initRegistry).ctor_runs = 2
        ∧ (runSchedule sched initRegistry).threadA
            ≠ (runSchedule sched initRegistry).threadB := by
  exact ⟨by decide, ⟨race_schedule, by decide⟩⟩

/-! Claim C4: reset semantics. -/

/-- Claim C4 counterexample: the reset path takes no conversation id and
clears the whole system singleton, so resetting to clear conversation
conv-a also deletes the record of conversation conv-b, refuting the claim
that exactly the given conversation record is deleted. -/
theorem C4_counterexample :
    load_conversation
      (reset_multi_agent_system_op
        (some ⟨[("conv-a", [Msg.mk 0 "user" "hello"]),
                ("conv-b", [Msg.mk 1 "user" "hi there"])]⟩))
      "conv-b" = []
    ∧ load_conversation
        (some ⟨[("conv-a", [Msg.mk 0 "user" "hello"]),
                ("conv-b", [Msg.mk 1 "user" "hi there"])]⟩)
        "conv-b" = [Msg.mk 1 "user" "hi there"] := by
  decide

/-- Claim C4 (amended): the reset operation takes no conversation id and
clears the entire multi-agent system singleton; after a reset, loading any
conversation returns the empty fresh state, resetting twice has the same
effect as resetting once, and the endpoint reports success. -/
theorem C4_reset_global_idempotent :
    ∀ sys thread_id,
      load_conversation (reset_multi_agent_system_op sys) thread_id = []
      ∧ reset_multi_agent_system_op (reset_multi_agent_system_op sys)
          = reset_multi_agent_system_op sys
      ∧ (reset_agent_memory sys).1 = true :=
  fun _ _ => ⟨rfl, rfl, rfl⟩

/-! Claim C5: empty message handling. -/

/-- Claim C5 counterexample: an empty message passes request validation and
the handler places it into the initial state passed to the agent, so the
call is not rejected with an InvalidInput error and the transcript does
receive the empty user message. -/
theorem C5_counterexample :
    validate_chat_request (some "") none = PyExcept.ok ⟨"", none⟩
    ∧ (chat_initial_state ⟨"", none⟩).messages = [Msg.mk 0 "user" ""] := by
  decide

/-- Claim C5 (amended): the message field is required but has no minimum
length, so every string, the empty string included, passes validation and
is forwarded unconditionally to the agent as the user message of the
initial state; the only validation failure is a missing field. -/
theorem C5_empty_message_accepted :
    ∀ m tid,
      validate_chat_request (some m) tid = PyExcept.ok ⟨m, tid⟩
      ∧ (chat_initial_state ⟨m, tid⟩).messages = [Msg.mk 0 "user" m]
      ∧ validate_chat_request none tid
          = PyExcept.raised "ValidationError: field required: message" :=
  fun _ _ => ⟨rfl, rfl, rfl⟩

/-! Claim C6: document executor failure recovery. -/

/-- What the document node guarantees when its internal agent raises: the
call does not propagate the exception, and the merged state gains exactly
one assistant message reporting the failure, with the current specialist
set to the document tag. -/
def DocumentErrorContract (state : AgentState) (e : String) (freshId : Nat) : Prop :=
  document_agent_call (.ok ()) (.raised e) freshId state
      = .ok (document_agent_node (.raised e) freshId state)
  ∧ (applyNode state (document_agent_node (.raised e) freshId state)).messages
      = state.messages ++ [Msg.mk freshId "assistant" (docErrorContent e)]
  ∧ (applyNode state (document_agent_node (.raised e) freshId state)).current_agent
      = "document_agent"

/-- Claim C6: when the internal document agent raises a non-configuration
error, document_agent_node returns a valid state instead of propagating:
the transcript advances by exactly one assistant message communicating the
failure and current_agent becomes document_agent. -/
theorem C6_document_failure_recovered (state : AgentState) (e : String) (freshId : Nat)
    (hne : state.messages ≠ []) (hfresh : FreshId state.messages freshId) :
    DocumentErrorContract state e freshId := by
  have hemp : state.messages.isEmpty = false := by
    cases hmsg : state.messages with
    | nil => exact absurd hmsg hne
    | cons a l => rfl
  have hnode : document_agent_node (.raised e) freshId state
      = { state with
            messages := [Msg.mk freshId "assistant" (docErrorContent e)]
            current_agent := "document_agent" } := by
    unfold document_agent_node
    rw [hemp]
    rfl
  refine ⟨rfl, ?_, ?_⟩
  · rw [hnode]
    show addMessages state.messages [Msg.mk freshId "assistant" (docErrorContent e)] = _
    exact addMessages_single _ _ (fun o ho => hfresh o ho)
  · rw [hnode]
    rfl

/-- Claim C6 witness: the contract at a concrete state and error. -/
theorem C6_witness :
    ((⟨[Msg.mk 0 "user" "read invoice.png"], "", "supervisor", "document", []⟩ :
        AgentState).messages ≠ []
      ∧ FreshId (⟨[Msg.mk 0 "user" "read invoice.png"], "", "supervisor", "document", []⟩ :
          AgentState).messages 1)
    ∧ DocumentErrorContract
        ⟨[Msg.mk 0 "user" "read invoice.png"], "", "supervisor", "document", []⟩
        "file not found" 1 :=
  ⟨⟨by decide, by decide⟩,
   C6_document_failure_recovered
     ⟨[Msg.mk 0 "user" "read invoice.png"], "", "supervisor", "document", []⟩
     "file not found" 1 (by decide) (by decide)⟩

/-! Claim C7: executors never write the routing field. -/

/-- Claim C7: both specialist nodes leave next_agent exactly as it was in
the input state, in every branch: only the classifier step may set the
routing field. -/
theorem C7_nodes_preserve_next_agent (state : AgentState)
    (invokeResult : PyExcept (List Msg)) (groq : Bool) (fidD fidV : Nat) :
    (applyNode state (document_agent_node invokeResult fidD state)).next_agent
        = state.next_agent
    ∧ (applyNode state (video_agent_node groq fidV state)).next_agent
        = state.next_agent := by
  constructor
  · show (document_agent_node invokeResult fidD state).next_agent = state.next_agent
    unfold document_agent_node
    cases hmsg : state.messages.isEmpty <;> cases invokeResult <;> rfl
  · rfl

/-! Claim C8: append-only transcript across invoke calls. -/

/-- Claim C8 counterexample: the supervisor is compiled with
checkpointer=None, so nothing persists between invoke calls on one thread;
a first call producing a three-message transcript followed by a second
call on the same thread producing a two-message transcript violates the
monotone-length property and loses the prior messages altogether. -/
theorem C8_counterexample :
    ((invokeSupervisor supervisor_checkpointer "t1" "extract text from invoice.png"
        [SupDecision.callTools ["use_ocr_specialist"],
         SupDecision.respond "the text reads 42"]).1).length = 3
    ∧ ((invokeSupervisor
          (invokeSupervisor supervisor_checkpointer "t1" "extract text from invoice.png"
            [SupDecision.callTools ["use_ocr_specialist"],
             SupDecision.respond "the text reads 42"]).2
          "t1" "thanks" [SupDecision.respond "welcome"]).1).length = 2
    ∧ ¬(3 ≤ 2) := by
  decide

/-- Claim C8 (amended): within one run the transcript is append-only — the
add_messages reducer only appends a batch of fresh-id messages, changing and
reordering nothing — but the supervisor is compiled with checkpointer=None,
so no transcript persists across invoke calls: every call loads an empty
prior transcript, stores nothing, and computes its result from the new user
message alone. -/
theorem C8_append_only_no_persistence :
    (∀ old new, FreshBatch old new → addMessages old new = old ++ new)
    ∧ ∀ tid user_message ds,
        loadThread supervisor_checkpointer tid = []
        ∧ (invokeSupervisor supervisor_checkpointer tid user_message ds).2 = none
        ∧ (invokeSupervisor supervisor_checkpointer tid user_message ds).1
            = (agentLoop ds [Msg.mk 0 "user" user_message] 0).1 := by
  constructor
  · intro old new h
    exact addMessages_append old new h.1 h.2
  · intro tid user_message ds
    exact ⟨rfl, rfl, rfl⟩

/-- Claim C8 witness: the append-only merge at a concrete transcript and
fresh batch. -/
theorem C8_witness :
    FreshBatch [Msg.mk 0 "user" "hi"] [Msg.mk 1 "tool" "r", Msg.mk 2 "assistant" "hello"]
    ∧ addMessages [Msg.mk 0 "user" "hi"] [Msg.mk 1 "tool" "r", Msg.mk 2 "assistant" "hello"]
        = [Msg.mk 0 "user" "hi", Msg.mk 1 "tool" "r", Msg.mk 2 "assistant" "hello"] :=
  ⟨by decide,
   C8_append_only_no_persistence.1
     [Msg.mk 0 "user" "hi"] [Msg.mk 1 "tool" "r", Msg.mk 2 "assistant" "hello"]
     (by decide)⟩

/-! Claim C9: the placeholder video executor. -/

/-- What the video node guarantees for every input state: exactly one
appended assistant message whose content is the placeholder template applied
to the latest message, the current specialist set to video_agent, and the
context merged under the video_result key with every other key preserved. -/
def VideoNodeContract (state : AgentState) (groq : Bool) (freshId : Nat) : Prop :=
  (applyNode state (video_agent_node groq freshId state)).messages
      = state.messages
        ++ [Msg.mk freshId "assistant"
              (videoContent (((state.messages.getLast?).map (fun m => m.content)).getD "") groq)]
  ∧ (applyNode state (video_agent_node groq freshId state)).current_agent = "video_agent"
  ∧ ctxLookup (applyNode state (video_agent_node groq freshId state)).context "video_result"
      = some "Phase 2 - Coming Soon"
  ∧ ∀ k, k ≠ "video_result" →
      ctxLookup (applyNode state (video_agent_node groq freshId state)).context k
        = ctxLookup state.context k

/-- Claim C9 (amended): the placeholder video executor succeeds on every
input state, appending exactly one response message — a templated
placeholder built from the latest message and provider availability, not a
fixed string — setting current_agent to video_agent, and merging its result
into the context under video_result without disturbing any other key. -/
theorem C9_video_placeholder_contract (state : AgentState) (groq : Bool) (freshId : Nat)
    (hfresh : FreshId state.messages freshId) :
    VideoNodeContract state groq freshId := by
  refine ⟨?_, rfl, ?_, ?_⟩
  · show addMessages state.messages
      [Msg.mk freshId "assistant"
        (videoContent (((state.messages.getLast?).map (fun m => m.content)).getD "") groq)] = _
    exact addMessages_single _ _ (fun o ho => hfresh o ho)
  · show ctxLookup (dictInsert state.context "video_result" "Phase 2 - Coming Soon")
      "video_result" = some "Phase 2 - Coming Soon"
    exact ctxLookup_dictInsert_self state.context _ _
  · intro k hk
    show ctxLookup (dictInsert state.context "video_result" "Phase 2 - Coming Soon") k
      = ctxLookup state.context k
    exact ctxLookup_dictInsert_other state.context _ _ k hk

/-- Claim C9 witness: the contract at a concrete state. -/
theorem C9_witness :
    FreshId (⟨[Msg.mk 0 "user" "analyze video.mp4 for faces"],
        "", "supervisor", "video", [("document_result", "some text")]⟩ :
        AgentState).messages 7
    ∧ VideoNodeContract
        ⟨[Msg.mk 0 "user" "analyze video.mp4 for faces"],
         "", "supervisor", "video", [("document_result", "some text")]⟩ true 7 :=
  ⟨by decide,
   C9_video_placeholder_contract
     ⟨[Msg.mk 0 "user" "analyze video.mp4 for faces"],
      "", "supervisor", "video", [("document_result", "some text")]⟩ true 7 (by decide)⟩

/-- Claim C9 counterexample: the response message is not a fixed string —
two input states whose latest messages differ produce different response
contents, since the template embeds up to 200 characters of the request. -/
theorem C9_counterexample :
    (video_agent_node true 1
        ⟨[Msg.mk 0 "user" "analyze clip A"], "", "", "video", []⟩).messages
    ≠ (video_agent_node true 1
        ⟨[Msg.mk 0 "user" "analyze clip B with more detail"], "", "", "video", []⟩).messages := by
  decide

/-! Claim C10: the QA search tool. -/

/-- Claim C10: search_extracted_text is a pure function of its two string
arguments returning exactly the lines of the context that contain the query
case-insensitively, in their original order, joined by newlines; when no
line matches it returns the fixed not-found string quoting the query. -/
theorem C10_search_characterization (query context : String) :
    search_extracted_text query context
      = (if (pySplitLines context).filter (lineMatchesCI query) = []
         then "No information found for " ++ apos ++ query ++ apos ++ " in the provided context."
         else joinLines ((pySplitLines context).filter (lineMatchesCI query)))
    ∧ ((pySplitLines context).filter (lineMatchesCI query)).Sublist (pySplitLines context)
    ∧ ∀ line, line ∈ (pySplitLines context).filter (lineMatchesCI query)
        ↔ (line ∈ pySplitLines context ∧ lineMatchesCI query line = true) := by
  refine ⟨?_, List.filter_sublist _, ?_⟩
  · unfold search_extracted_text
    by_cases h : (pySplitLines context).filter (lineMatchesCI query) = []
    · have hemp : ((pySplitLines context).filter (lineMatchesCI query)).isEmpty = true := by
        rw [List.isEmpty_iff]
        exact h
      rw [if_pos h]
      simp [hemp]
    · have hemp : ((pySplitLines context).filter (lineMatchesCI query)).isEmpty = false := by
        rw [Bool.eq_false_iff]
        intro hc
        exact h (List.isEmpty_iff.mp hc)
      rw [if_neg h]
      simp [hemp]
  · intro line
    exact List.mem_filter

end MVAS
